import Mathlib

/-!
Verification of the FLEET2 telemetry / trip-tracking core against its
natural-language specification.

The development shallowly embeds the TypeScript source:
* `src/types.ts` — the data model (`JobStatus`, `SyncSpeed`, `Location`,
  `Driver`, `Job`);
* `src/App.tsx` — `calculateRouteDistance` and the pure core of
  `handleUpdateJobStatus` (the Firestore `updateDoc` merge is made explicit
  as `applyJobUpdates`);
* `src/components/DriverPortal.tsx` — `getSyncCooldown`, the geolocation
  watch callback's emission condition, and the `arrayUnion` route append;
* `src/components/AdminDashboard.tsx` — `getEffectiveStatus`;
* `src/components/LiveMap.tsx` — the replay playback state machine and the
  progress-bar width computation.

JS numbers are idealized as `ℚ` (timestamps as `ℤ` epoch milliseconds).
The one non-finite JS value that matters (the `NaN` produced by `0/0` in the
progress-bar width) is modelled by `Option ℚ` with `none` for any non-finite
result.  The pairwise haversine distance `calculateDistance` uses
transcendental functions, so functions that sum it over a route are
parametrized by an abstract pairwise distance `d : Location → Location → ℚ`;
every property proved or refuted below is independent of the inner formula.
-/

namespace Fleet

/-- `src/types.ts` enum `JobStatus`. -/
inductive JobStatus
  | PENDING
  | IN_PROGRESS
  | COMPLETED
  | CANCELLED
deriving DecidableEq

/-- `src/types.ts` type `SyncSpeed = 'FAST' | 'MEDIUM' | 'SLOW'`. -/
inductive SyncSpeed
  | FAST
  | MEDIUM
  | SLOW
deriving DecidableEq

/-- `src/types.ts` `Driver.status : 'ONLINE' | 'OFFLINE' | 'ON_JOB'`.
`ON_JOB` is the code's name for the spec's `ON_TRIP`. -/
inductive DriverStatus
  | ONLINE
  | OFFLINE
  | ON_JOB
deriving DecidableEq

/-- `src/types.ts` interface `Location` (the spec's GeoSample):
lat, lng, optional speed, optional epoch-millisecond timestamp. -/
structure Location where
  lat : ℚ
  lng : ℚ
  speed : Option ℚ := none
  timestamp : Option ℤ := none
deriving DecidableEq

/-- `src/types.ts` interface `Driver` (the spec's Vehicle), restricted to the
fields the verified components read.  `lastSeen` is the heartbeat timestamp
read by `getEffectiveStatus`. -/
structure Driver where
  id : String
  status : DriverStatus
  lastKnownLocation : Option Location := none
  lastSeen : Option ℤ := none
deriving DecidableEq

/-- `src/types.ts` interface `Job` (the spec's Trip), restricted to the fields
the verified components read and write.  `startTime`/`endTime` are stored as
ISO strings in the source and converted with `new Date(s).getTime()` wherever
they are used numerically; the embedding keeps them as the resulting epoch
milliseconds directly. -/
structure Job where
  id : String
  driverId : String := ""
  status : JobStatus
  startTime : Option ℤ := none
  endTime : Option ℤ := none
  startLocation : Option Location := none
  endLocation : Option Location := none
  route : Option (List Location) := none
  distanceKm : Option ℚ := none
  avgSpeed : Option ℤ := none
deriving DecidableEq

/-- JS `Math.round`: round to nearest, ties toward positive infinity
(`⌊x + 1/2⌋`), which is exactly Mathlib's `round` on `ℚ`. -/
def jsMathRound (q : ℚ) : ℤ := round q

/-- JS `parseFloat(total.toFixed(2))` on a nonnegative total: round to the
nearest hundredth (ties up). -/
def toFixed2 (q : ℚ) : ℚ := ((round (q * 100) : ℤ) : ℚ) / 100

/-- The loop body of `calculateRouteDistance` (`src/App.tsx` lines 98-101):
sum of the pairwise distance `d` over consecutive elements. -/
def sumConsecutive (d : Location → Location → ℚ) : List Location → ℚ
  | a :: b :: rest => d a b + sumConsecutive d (b :: rest)
  | _ => 0

/-- `src/App.tsx` `calculateRouteDistance` (lines 96-103): 0 for fewer than
two samples, else the consecutive-pair sum of `calculateDistance` rounded via
`parseFloat(total.toFixed(2))`.  The pairwise haversine `calculateDistance`
is the abstract parameter `d`. -/
def calculateRouteDistance (d : Location → Location → ℚ)
    (route : List Location) : ℚ :=
  if route.length < 2 then 0 else toFixed2 (sumConsecutive d route)

/-- Firestore `updateDoc` merge semantics for one field: a field present in
the update overwrites, an absent field keeps the stored value. -/
def mergeField {α : Type} : Option α → Option α → Option α
  | some v, _ => some v
  | none, old => old

/-- The partial document `updates` assembled by `handleUpdateJobStatus`
(`src/App.tsx` lines 112-144).  `status` is always present; every other field
is present only when the corresponding branch set it. -/
structure JobUpdates where
  status : JobStatus
  startTime : Option ℤ := none
  startLocation : Option Location := none
  route : Option (List Location) := none
  endTime : Option ℤ := none
  endLocation : Option Location := none
  distanceKm : Option ℚ := none
  avgSpeed : Option ℤ := none
deriving DecidableEq

/-- `src/App.tsx` `handleUpdateJobStatus` lines 112-144: the `updates` object
built for `targetJob` when `status` is requested, where `pos` is the result
of `getCurrentPosition()` (`none` on positioning failure) and `now` the epoch
milliseconds of `new Date().toISOString()`.

* `IN_PROGRESS` (lines 115-123): always sets `startTime`; sets
  `startLocation` and seeds `route = [startPos]` only when positioning
  succeeded.
* `COMPLETED` (lines 125-144): always sets `endTime` and `distanceKm`
  (computed over `[...(targetJob.route || [])]` plus the end fix when
  available); sets `endLocation` only when positioning succeeded; sets
  `avgSpeed` only when `targetJob.startTime` is set, as
  `durationHours > 0 ? Math.round(realKm / durationHours) : 0` with
  `durationHours = (endT - startT) / 3600000`.  Note the COMPLETED branch
  never writes the `route` field. -/
def buildStatusUpdates (d : Location → Location → ℚ) (targetJob : Job)
    (status : JobStatus) (pos : Option Location) (now : ℤ) : JobUpdates :=
  let base : JobUpdates := { status := status }
  let withStart : JobUpdates :=
    if status = JobStatus.IN_PROGRESS then
      { base with
        startTime := some now
        startLocation := pos
        route := pos.map (fun p => [p]) }
    else base
  if status = JobStatus.COMPLETED then
    let finalRoute : List Location := targetJob.route.getD [] ++ pos.toList
    let realKm : ℚ := calculateRouteDistance d finalRoute
    let avg : Option ℤ :=
      match targetJob.startTime with
      | some startT =>
          if 0 < now - startT then
            some (jsMathRound (realKm * 3600000 / ((now - startT : ℤ) : ℚ)))
          else some 0
      | none => none
    { withStart with
      endTime := some now
      endLocation := pos
      distanceKm := some realKm
      avgSpeed := avg }
  else withStart

/-- `await updateDoc(jobRef, updates)`: merge the partial document into the
stored job. -/
def applyJobUpdates (j : Job) (u : JobUpdates) : Job :=
  { j with
    status := u.status
    startTime := mergeField u.startTime j.startTime
    startLocation := mergeField u.startLocation j.startLocation
    route := mergeField u.route j.route
    endTime := mergeField u.endTime j.endTime
    endLocation := mergeField u.endLocation j.endLocation
    distanceKm := mergeField u.distanceKm j.distanceKm
    avgSpeed := mergeField u.avgSpeed j.avgSpeed }

/-- `src/App.tsx` `handleUpdateJobStatus` (lines 105-154) as a function from
the jobs list to the stored state of the target job after the update:
`none` when `jobs.find` misses (line 110, the only case that leaves every
document untouched), otherwise the merged job document.  There is no guard on
the job's current status. -/
def handleUpdateJobStatus (d : Location → Location → ℚ) (jobs : List Job)
    (jobId : String) (status : JobStatus) (pos : Option Location)
    (now : ℤ) : Option Job :=
  (jobs.find? (fun j => j.id == jobId)).map
    (fun tj => applyJobUpdates tj (buildStatusUpdates d tj status pos now))

/-- `src/App.tsx` lines 147-149: the driver-document status written alongside
every job status update: `ON_JOB` when the request is `IN_PROGRESS`,
otherwise `ONLINE`. -/
def driverStatusAfterJobUpdate (status : JobStatus) : DriverStatus :=
  if status = JobStatus.IN_PROGRESS then DriverStatus.ON_JOB
  else DriverStatus.ONLINE

/-- `src/components/DriverPortal.tsx` `getSyncCooldown` (lines 26-33):
the per-`syncSpeed` cooldown in milliseconds.  The source's `default` branch
(15000) is unreachable for a well-typed `SyncSpeed`. -/
def getSyncCooldown : SyncSpeed → ℤ
  | SyncSpeed.FAST => 5000
  | SyncSpeed.MEDIUM => 15000
  | SyncSpeed.SLOW => 60000

/-- The emission condition of the geolocation watch callback
(`src/components/DriverPortal.tsx` lines 61-66): the fix at time `now` is
transmitted exactly when `now - lastSyncTimestamp.current > getSyncCooldown()`.
The fix's position is not consulted. -/
def shouldEmit (syncSpeed : SyncSpeed) (now lastSync : ℤ) : Bool :=
  decide (now - lastSync > getSyncCooldown syncSpeed)

/-- The watch is registered only while an active (IN_PROGRESS) job exists
(`src/components/DriverPortal.tsx` lines 57-78); composed with the callback
condition this is the reporter's whole emission decision. -/
def reporterEmits (hasActiveJob : Bool) (syncSpeed : SyncSpeed)
    (now lastSync : ℤ) : Bool :=
  hasActiveJob && shouldEmit syncSpeed now lastSync

/-- Modelled from the spec (for comparison with `shouldEmit`): the spec's
Reporter emission rule, `distanceMoved(lastEmitted, current) >
MOVEMENT_THRESHOLD or current.timestamp - lastEmitted.timestamp >
TIME_THRESHOLD(syncSpeed)` (spec section 4.2).  No `MOVEMENT_THRESHOLD`
constant exists in the source, so the threshold is a parameter. -/
def specShouldEmit (movementThreshold distMoved : ℚ) (syncSpeed : SyncSpeed)
    (now lastEmitted : ℤ) : Bool :=
  decide (distMoved > movementThreshold) ||
    decide (now - lastEmitted > getSyncCooldown syncSpeed)

/-- Fields of the `drivers` document that the verified write sites touch. -/
inductive DriverField
  | lastKnownLocation
  | status
  | lastSeen
deriving DecidableEq

/-- Fields written on the `drivers` document by the reporter's
`updateLocationInDB` (`src/components/DriverPortal.tsx` lines 47-54 and
lines 300-321): only `lastKnownLocation`. -/
def reporterSyncFields : List DriverField := [DriverField.lastKnownLocation]

/-- Fields written on the `drivers` document by `handleUpdateJobStatus`
(`src/App.tsx` lines 147-149): only `status`. -/
def jobStatusDriverWriteFields : List DriverField := [DriverField.status]

/-- Firestore `arrayUnion(loc)` applied to the stored `route`
(`src/components/DriverPortal.tsx` line 315): append the element at the tail
unless an identical element is already present. -/
def arrayUnionAppend (route : List Location) (loc : Location) :
    List Location :=
  if loc ∈ route then route else route ++ [loc]

/-- The spec's Route invariant (section 3): consecutive samples have
non-decreasing timestamps. -/
def routeSorted (route : List Location) : Prop :=
  List.Chain' (fun a b => a.timestamp.getD 0 ≤ b.timestamp.getD 0) route

instance (route : List Location) : Decidable (routeSorted route) := by
  unfold routeSorted; infer_instance

/-- `src/components/AdminDashboard.tsx` line 415. -/
def HEARTBEAT_TIMEOUT : ℤ := 60000

/-- `src/components/AdminDashboard.tsx` `getEffectiveStatus`
(lines 414-420): `OFFLINE` when `!driver.lastSeen` (the field is absent, or
is the JS-falsy value 0) or when the heartbeat is older than 60 s; otherwise
the stored `driver.status` is returned unchanged. -/
def getEffectiveStatus (now : ℤ) (driver : Driver) : DriverStatus :=
  match driver.lastSeen with
  | none => DriverStatus.OFFLINE
  | some t =>
      if t = 0 ∨ now - t > HEARTBEAT_TIMEOUT then DriverStatus.OFFLINE
      else driver.status

/-- Replay state of `src/components/LiveMap.tsx`: `replayIndex`,
`isReplaying`, `playbackSpeed` (lines 29-31). -/
structure ReplayState where
  replayIndex : ℤ
  isReplaying : Bool
  playbackSpeed : ℤ
deriving DecidableEq

/-- The initial replay state (`useState(false)` / `useState(0)` /
`useState(1)`), also re-established whenever a replay is opened
(lines 84-85). -/
def initialReplayState : ReplayState :=
  { replayIndex := 0, isReplaying := false, playbackSpeed := 1 }

/-- User/timer events that mutate the replay state, for a fixed route:
* `tick` — one firing of the playback interval (lines 117-132);
* `stepBack`/`stepForward` — the step buttons (lines 316 and 320);
* `togglePlay` — the play/pause button (line 317);
* `seekBar frac` — a click at fraction `frac` of the progress bar's width
  (lines 308-311);
* `setSpeed v` — a speed button (line 303). -/
inductive ReplayOp
  | tick
  | stepBack
  | stepForward
  | togglePlay
  | seekBar (frac : ℚ)
  | setSpeed (v : ℤ)

/-- One event applied to the replay state over a route of length `n`.

* `tick`: the interval exists only while `isReplaying` (line 118); the
  callback returns `prev` and clears `isReplaying` when `prev >= n - 1`,
  else advances to `prev + 1` (lines 120-126).
* `stepBack`: `Math.max(0, replayIndex - 10)` (line 316).
* `stepForward`: `Math.min(n - 1, replayIndex + 10)` (line 320).
* `seekBar`: `Math.floor(frac * (n - 1))` where `frac` is the click offset
  divided by the bar width (line 310).
* `togglePlay`/`setSpeed`: toggle `isReplaying` / set the multiplier. -/
def replayStep (n : ℤ) (s : ReplayState) : ReplayOp → ReplayState
  | ReplayOp.tick =>
      if s.isReplaying then
        if s.replayIndex ≥ n - 1 then { s with isReplaying := false }
        else { s with replayIndex := s.replayIndex + 1 }
      else s
  | ReplayOp.stepBack => { s with replayIndex := max 0 (s.replayIndex - 10) }
  | ReplayOp.stepForward =>
      { s with replayIndex := min (n - 1) (s.replayIndex + 10) }
  | ReplayOp.togglePlay => { s with isReplaying := !s.isReplaying }
  | ReplayOp.seekBar frac =>
      { s with replayIndex := ⌊frac * ((n - 1 : ℤ) : ℚ)⌋ }
  | ReplayOp.setSpeed v => { s with playbackSpeed := v }

/-- Run a sequence of replay events from the freshly opened replay. -/
def replayRun (n : ℤ) (ops : List ReplayOp) : ReplayState :=
  ops.foldl (replayStep n) initialReplayState

/-- A click on the progress bar yields an offset inside the bar, so its
fraction of the width lies in `[0, 1]`; the other events carry no input. -/
def opInRange : ReplayOp → Prop
  | ReplayOp.seekBar frac => 0 ≤ frac ∧ frac ≤ 1
  | _ => True

/-- JS division producing a finite number or not: `0/0` is `NaN` and `x/0`
is an infinity; `none` stands for any such non-finite result. -/
def jsDiv (a b : ℚ) : Option ℚ := if b = 0 then none else some (a / b)

/-- The progress-bar width percentage `(replayIndex / (route.length - 1)) *
100` (`src/components/LiveMap.tsx` line 312), rendered whenever
`route.length > 0` (line 293). -/
def progressWidthPct (replayIndex : ℤ) (routeLen : ℤ) : Option ℚ :=
  (jsDiv (replayIndex : ℚ) ((routeLen : ℚ) - 1)).map (fun q => q * 100)

/-! ### Concrete inputs used by counterexamples and witnesses -/

/-- A sample at t = 0 ms. -/
def locA : Location := { lat := 1, lng := 1, timestamp := some 0 }

/-- A sample at t = 300 000 ms. -/
def locB : Location := { lat := 2, lng := 2, timestamp := some 300000 }

/-- A sample at t = 600 000 ms. -/
def locC : Location := { lat := 3, lng := 3, timestamp := some 600000 }

/-- A sample at t = 900 000 ms. -/
def locEnd : Location := { lat := 4, lng := 4, timestamp := some 900000 }

/-- A late-arriving sample whose capture time (t = 50 ms) is older than
`locEnd`. -/
def locStale : Location := { lat := 9, lng := 9, timestamp := some 50 }

/-- A concrete instance of the abstract pairwise distance: every pair is
1/7 km apart (a value that is not a multiple of 0.01, so the `toFixed(2)`
rounding in `calculateRouteDistance` is visible). -/
def constSeventh : Location → Location → ℚ := fun _ _ => 1 / 7

/-- The degenerate concrete pairwise distance. -/
def dzero : Location → Location → ℚ := fun _ _ => 0

/-- A job already in the terminal COMPLETED state. -/
def completedJobC1 : Job :=
  { id := "J1", driverId := "D1", status := JobStatus.COMPLETED }

/-- An active (IN_PROGRESS) trip that started at t = 0 with a three-sample
accumulated route. -/
def activeJobC3 : Job :=
  { id := "J2", driverId := "D1", status := JobStatus.IN_PROGRESS,
    startTime := some 0, route := some [locA, locB, locC] }

/-- The stored job document after completing `activeJobC3` at t = 900 000 ms
with end fix `locEnd`, under pairwise distance `constSeventh`. -/
def completionResultC3 : Option Job :=
  handleUpdateJobStatus constSeventh [activeJobC3] "J2" JobStatus.COMPLETED
    (some locEnd) 900000

/-- A driver whose stored status is OFFLINE but whose heartbeat is fresh
(10 s old when read at now = 100 000 ms). -/
def freshOfflineDriver : Driver :=
  { id := "D3", status := DriverStatus.OFFLINE, lastSeen := some 90000 }

/-- A driver on a job whose heartbeat is 61.001 s old when read at
now = 62 001 ms. -/
def onJobDriverStale : Driver :=
  { id := "D1", status := DriverStatus.ON_JOB, lastSeen := some 1000 }

/-- A driver on a job whose heartbeat is 10 s old when read at
now = 62 001 ms. -/
def onJobDriverFresh : Driver :=
  { id := "D1", status := DriverStatus.ON_JOB, lastSeen := some 52001 }

/-- A driver record that has never received a heartbeat. -/
def neverSeenDriver : Driver :=
  { id := "D9", status := DriverStatus.ON_JOB }

/-! ### Helper lemmas -/

/-- The `updates` object always carries exactly the requested status. -/
theorem buildStatusUpdates_status (d : Location → Location → ℚ) (tj : Job)
    (status : JobStatus) (pos : Option Location) (now : ℤ) :
    (buildStatusUpdates d tj status pos now).status = status := by
  unfold buildStatusUpdates
  by_cases h1 : status = JobStatus.IN_PROGRESS <;>
    by_cases h2 : status = JobStatus.COMPLETED <;>
      simp [h1, h2]

/-- Closed form of the `updates` object of the COMPLETED branch
(`src/App.tsx` lines 125-144): `endTime`, optional `endLocation`,
`distanceKm` over the stored route plus the end fix, and `avgSpeed` when a
start time exists; the `route` field is not part of the update. -/
theorem buildStatusUpdates_completed (d : Location → Location → ℚ) (tj : Job)
    (pos : Option Location) (now : ℤ) :
    buildStatusUpdates d tj JobStatus.COMPLETED pos now =
      { status := JobStatus.COMPLETED
        endTime := some now
        endLocation := pos
        distanceKm :=
          some (calculateRouteDistance d (tj.route.getD [] ++ pos.toList))
        avgSpeed :=
          match tj.startTime with
          | some startT =>
              if 0 < now - startT then
                some (jsMathRound
                  (calculateRouteDistance d (tj.route.getD [] ++ pos.toList)
                    * 3600000 / ((now - startT : ℤ) : ℚ)))
              else some 0
          | none => none } := by
  unfold buildStatusUpdates
  simp

/-! ### Claims -/

/-- C1 (counterexample): the trip state machine does not reject updates out
of a terminal state.  For the job `completedJobC1`, already COMPLETED, a
requested update to IN_PROGRESS is applied: the stored status afterwards is
IN_PROGRESS, not the unchanged COMPLETED the claim requires. -/
theorem C1_terminal_transition_applied :
    completedJobC1.status = JobStatus.COMPLETED
    ∧ (handleUpdateJobStatus dzero [completedJobC1] "J1" JobStatus.IN_PROGRESS
        none 1000).map Job.status = some JobStatus.IN_PROGRESS
    ∧ some JobStatus.IN_PROGRESS ≠ some JobStatus.COMPLETED :=
  ⟨rfl, rfl, by decide⟩

/-- C1 (amended): `handleUpdateJobStatus` applies the requested status
unconditionally to any job found by id — no source-state guard exists, so
transitions out of COMPLETED or CANCELLED (and transitions skipping PENDING)
are all accepted; only an unknown job id leaves every document unchanged.
The admissible transitions are enforced solely by the UI call sites. -/
theorem C1_status_update_unconditional (d : Location → Location → ℚ)
    (jobs : List Job) (jobId : String) (status : JobStatus)
    (pos : Option Location) (now : ℤ) :
    (∀ j, handleUpdateJobStatus d jobs jobId status pos now = some j →
      j.status = status)
    ∧ (jobs.find? (fun j => j.id == jobId) = none →
        handleUpdateJobStatus d jobs jobId status pos now = none) := by
  constructor
  · intro j hj
    unfold handleUpdateJobStatus at hj
    obtain ⟨tj, hfind, happ⟩ := Option.map_eq_some'.mp hj
    rw [← happ]
    exact buildStatusUpdates_status d tj status pos now
  · intro h
    unfold handleUpdateJobStatus
    rw [h]
    rfl

/-- C1 (witness): concrete instance of `C1_status_update_unconditional` —
requesting CANCELLED on the COMPLETED job `completedJobC1` stores CANCELLED. -/
theorem C1_status_update_unconditional_witness :
    (applyJobUpdates completedJobC1
      (buildStatusUpdates dzero completedJobC1 JobStatus.CANCELLED none 5)).status
      = JobStatus.CANCELLED :=
  (C1_status_update_unconditional dzero [completedJobC1] "J1"
    JobStatus.CANCELLED none 5).1 _ rfl

/-- C2 (counterexample): the reporter's emission condition ignores movement.
With syncSpeed MEDIUM, a fix arriving 2 s (2000 ms) after the last sync is
not emitted, whatever distance was covered — `shouldEmit` does not even take
a position.  The spec's rule (`specShouldEmit`, with any movement threshold
below 50 m, here 0.01 km against 0.05 km moved) emits at the same instant. -/
theorem C2_movement_ignored :
    shouldEmit SyncSpeed.MEDIUM 2000 0 = false
    ∧ specShouldEmit (1 / 100) (5 / 100) SyncSpeed.MEDIUM 2000 0 = true := by
  constructor
  · rfl
  · norm_num [specShouldEmit, getSyncCooldown]

/-- C2 (amended): the reporter emits a fix if and only if the time elapsed
since the last successful sync exceeds the cooldown, where syncSpeed
FAST/MEDIUM/SLOW maps to 5 s/15 s/60 s; the distance moved is never
consulted, so a fix 50 m from the last emission but only 2 s after it is
not emitted. -/
theorem C2_time_only_emission (s : SyncSpeed) (now lastSync : ℤ) :
    (shouldEmit s now lastSync = true ↔
      now - lastSync > getSyncCooldown s)
    ∧ getSyncCooldown SyncSpeed.FAST = 5000
    ∧ getSyncCooldown SyncSpeed.MEDIUM = 15000
    ∧ getSyncCooldown SyncSpeed.SLOW = 60000 := by
  refine ⟨?_, rfl, rfl, rfl⟩
  simp [shouldEmit]

/-- C9: degenerate metric inputs are guarded: `calculateRouteDistance`
returns 0 for any route with fewer than 2 samples (whatever the pairwise
distance), and the COMPLETED transition stores `avgSpeed = 0` whenever the
trip duration is not positive. -/
theorem C9_degenerate_metrics :
    (∀ (d : Location → Location → ℚ) (route : List Location),
      route.length < 2 → calculateRouteDistance d route = 0)
    ∧ (∀ (d : Location → Location → ℚ) (tj : Job) (pos : Option Location)
        (now startT : ℤ), tj.startTime = some startT → now - startT ≤ 0 →
        (buildStatusUpdates d tj JobStatus.COMPLETED pos now).avgSpeed
          = some 0) := by
  constructor
  · intro d route h
    simp [calculateRouteDistance, h]
  · intro d tj pos now startT hst hdur
    rw [buildStatusUpdates_completed, hst]
    simp only []
    rw [if_neg (by omega)]

/-- C9 (witness): a one-sample route has distance 0, and a zero-duration
completion of `activeJobC3` stores average speed 0. -/
theorem C9_degenerate_metrics_witness :
    calculateRouteDistance dzero [locA] = 0
    ∧ (buildStatusUpdates dzero activeJobC3 JobStatus.COMPLETED none 0).avgSpeed
      = some 0 :=
  ⟨C9_degenerate_metrics.1 dzero [locA] (by decide),
   C9_degenerate_metrics.2 dzero activeJobC3 none 0 0 rfl (by decide)⟩

/-- C10: a driver record with no `lastSeen` field at all is reported
OFFLINE by `getEffectiveStatus`, regardless of the stored status. -/
theorem C10_missing_heartbeat_offline (driver : Driver) (now : ℤ)
    (h : driver.lastSeen = none) :
    getEffectiveStatus now driver = DriverStatus.OFFLINE := by
  unfold getEffectiveStatus
  rw [h]

/-- C10 (witness): the never-heartbeated driver with stored status ON_JOB is
reported OFFLINE. -/
theorem C10_missing_heartbeat_offline_witness :
    getEffectiveStatus 12345 neverSeenDriver = DriverStatus.OFFLINE :=
  C10_missing_heartbeat_offline neverSeenDriver 12345 rfl

/-- Closed form of `completionResultC3`: the spec's 4-point scenario (start
sample, two streamed samples, end fix at t = 900 s) under pairwise distance
1/7 km.  The stored route keeps its 3 samples; `distanceKm` is the rounded
value 0.43 (the exact pairwise sum is 3/7 ≈ 0.4286); `avgSpeed` is the
integer-rounded 2 (the exact quotient is 0.43 / 0.25 h = 1.72). -/
theorem completionResultC3_eq :
    completionResultC3 = some
      { id := "J2", driverId := "D1", status := JobStatus.COMPLETED,
        startTime := some 0, endTime := some 900000,
        endLocation := some locEnd,
        route := some [locA, locB, locC],
        distanceKm := some (43 / 100), avgSpeed := some 2 } := by
  have hsum : sumConsecutive constSeventh [locA, locB, locC, locEnd]
      = 3 / 7 := by
    norm_num [sumConsecutive, constSeventh]
  have hfix : toFixed2 (3 / 7) = 43 / 100 := by
    rw [toFixed2, round_eq]
    norm_num
  have havg : jsMathRound ((43 : ℚ) / 25) = 2 := by
    rw [jsMathRound, round_eq]
    norm_num
  unfold completionResultC3 handleUpdateJobStatus
  rw [show ([activeJobC3].find? (fun j => j.id == "J2"))
      = some activeJobC3 from rfl]
  rw [Option.map_some']
  unfold buildStatusUpdates
  norm_num [activeJobC3, calculateRouteDistance, hsum, hfix]
  rw [havg]
  simp [applyJobUpdates, mergeField]

/-- C3 (counterexample): completing `activeJobC3` (ACTIVE, startTime t = 0,
3-sample route) at t = 900 s with captured end fix `locEnd`, under pairwise
distance 1/7 km: the persisted route still has its 3 samples — the end
sample is not appended (the claim requires 4 samples); the stored
`distanceKm` 0.43 differs from the exact pairwise sum 3/7; and the stored
`avgSpeed` 2 differs from distance divided by the 0.25 h duration (1.72). -/
theorem C3_completion_counterexample :
    completionResultC3.map Job.route = some (some [locA, locB, locC])
    ∧ (some [locA, locB, locC] : Option (List Location))
        ≠ some [locA, locB, locC, locEnd]
    ∧ sumConsecutive constSeventh [locA, locB, locC, locEnd] = 3 / 7
    ∧ completionResultC3.map Job.distanceKm = some (some (43 / 100))
    ∧ (43 / 100 : ℚ) ≠ 3 / 7
    ∧ completionResultC3.map Job.avgSpeed = some (some 2)
    ∧ ((2 : ℚ) ≠ (43 / 100) / (900000 / 3600000)) := by
  refine ⟨?_, by decide, ?_, ?_, by norm_num, ?_, by norm_num⟩
  · rw [completionResultC3_eq]; rfl
  · norm_num [sumConsecutive, constSeventh]
  · rw [completionResultC3_eq]; rfl
  · rw [completionResultC3_eq]; rfl

/-- C3 (amended): completing a found job leaves the stored route unchanged
(the end fix goes to `endLocation` only); `distanceKm` is
`calculateRouteDistance` — the pairwise sum rounded to 2 decimals — over the
stored route plus the end fix when captured; and for a positive duration
`avgSpeed` is `Math.round` of distance divided by the duration in hours.
In the spec's 4-point scenario the persisted route therefore has 3 samples,
with the 4th held in `endLocation`. -/
theorem C3_completion_metrics (d : Location → Location → ℚ) (jobs : List Job)
    (jobId : String) (pos : Option Location) (now : ℤ) (tj j : Job)
    (hfind : jobs.find? (fun jb => jb.id == jobId) = some tj)
    (hres : handleUpdateJobStatus d jobs jobId JobStatus.COMPLETED pos now
      = some j) :
    j.route = tj.route
    ∧ j.endLocation = mergeField pos tj.endLocation
    ∧ j.distanceKm
        = some (calculateRouteDistance d (tj.route.getD [] ++ pos.toList))
    ∧ ∀ startT, tj.startTime = some startT → 0 < now - startT →
        j.avgSpeed = some (jsMathRound
          (calculateRouteDistance d (tj.route.getD [] ++ pos.toList)
            * 3600000 / ((now - startT : ℤ) : ℚ))) := by
  unfold handleUpdateJobStatus at hres
  rw [hfind, Option.map_some'] at hres
  have hj := Option.some.inj hres
  rw [← hj, buildStatusUpdates_completed]
  refine ⟨rfl, rfl, rfl, ?_⟩
  intro startT hst hdur
  show mergeField _ tj.avgSpeed = _
  rw [hst]
  simp only [if_pos hdur]
  rfl

/-- C3 (witness): concrete instance of `C3_completion_metrics` at the
degenerate pairwise distance, completing `activeJobC3` at t = 900 s. -/
theorem C3_completion_metrics_witness :
    (applyJobUpdates activeJobC3
        (buildStatusUpdates dzero activeJobC3 JobStatus.COMPLETED
          (some locEnd) 900000)).route = activeJobC3.route
    ∧ (applyJobUpdates activeJobC3
        (buildStatusUpdates dzero activeJobC3 JobStatus.COMPLETED
          (some locEnd) 900000)).endLocation
        = mergeField (some locEnd) activeJobC3.endLocation
    ∧ (applyJobUpdates activeJobC3
        (buildStatusUpdates dzero activeJobC3 JobStatus.COMPLETED
          (some locEnd) 900000)).distanceKm
        = some (calculateRouteDistance dzero
            (activeJobC3.route.getD [] ++ (some locEnd).toList))
    ∧ ∀ startT, activeJobC3.startTime = some startT → 0 < 900000 - startT →
        (applyJobUpdates activeJobC3
          (buildStatusUpdates dzero activeJobC3 JobStatus.COMPLETED
            (some locEnd) 900000)).avgSpeed
          = some (jsMathRound
              (calculateRouteDistance dzero
                (activeJobC3.route.getD [] ++ (some locEnd).toList)
                * 3600000 / ((900000 - startT : ℤ) : ℚ))) :=
  C3_completion_metrics dzero [activeJobC3] "J2" (some locEnd) 900000
    activeJobC3 _ rfl rfl

/-- C4 (counterexample): a driver whose stored status is OFFLINE and whose
heartbeat is only 10 s old is reported OFFLINE — the stored status is
returned verbatim, not translated into the set {ONLINE, ON_TRIP} as the
claim requires for every fresh-heartbeat driver. -/
theorem C4_stored_offline_passthrough :
    freshOfflineDriver.lastSeen = some 90000
    ∧ 100000 - 90000 ≤ HEARTBEAT_TIMEOUT
    ∧ getEffectiveStatus 100000 freshOfflineDriver = DriverStatus.OFFLINE
    ∧ getEffectiveStatus 100000 freshOfflineDriver ≠ DriverStatus.ONLINE
    ∧ getEffectiveStatus 100000 freshOfflineDriver ≠ DriverStatus.ON_JOB := by
  decide

/-- C4 (amended): with a recorded heartbeat, `getEffectiveStatus` returns
OFFLINE whenever the heartbeat is more than 60 000 ms old, regardless of the
stored status; otherwise (nonzero, fresh heartbeat) it returns the stored
status unchanged — which is ON_JOB (the code's ON_TRIP) or ONLINE for
drivers stored as such, but a stored OFFLINE is passed through as OFFLINE.
In particular the ON_JOB driver with a 61 s-old heartbeat reports OFFLINE
and with a 10 s-old heartbeat reports ON_JOB. -/
theorem C4_effective_status (driver : Driver) (now t : ℤ)
    (h : driver.lastSeen = some t) :
    (now - t > HEARTBEAT_TIMEOUT →
      getEffectiveStatus now driver = DriverStatus.OFFLINE)
    ∧ (t ≠ 0 → now - t ≤ HEARTBEAT_TIMEOUT →
        getEffectiveStatus now driver = driver.status)
    ∧ getEffectiveStatus 62001 onJobDriverStale = DriverStatus.OFFLINE
    ∧ getEffectiveStatus 62001 onJobDriverFresh = DriverStatus.ON_JOB := by
  refine ⟨?_, ?_, by decide, by decide⟩
  · intro hgt
    unfold getEffectiveStatus
    rw [h]
    show (if t = 0 ∨ now - t > HEARTBEAT_TIMEOUT then DriverStatus.OFFLINE
      else driver.status) = DriverStatus.OFFLINE
    rw [if_pos (Or.inr hgt)]
  · intro hne hle
    unfold getEffectiveStatus
    rw [h]
    show (if t = 0 ∨ now - t > HEARTBEAT_TIMEOUT then DriverStatus.OFFLINE
      else driver.status) = driver.status
    rw [if_neg]
    push_neg
    exact ⟨hne, hle⟩

/-- C4 (witness): concrete instance — the stale ON_JOB driver reports
OFFLINE at now = 62 001 ms. -/
theorem C4_effective_status_witness :
    getEffectiveStatus 62001 onJobDriverStale = DriverStatus.OFFLINE :=
  (C4_effective_status onJobDriverStale 62001 1000 rfl).1 (by decide)

/-- C5 (counterexample): no 20 s heartbeat exists.  With no active trip the
reporter emits nothing — even for a fix arriving 20 s after the last sync —
and the reporter's write never touches the `lastSeen` field the presence
tracker reads; consequently a reachable driver's heartbeat age can exceed
the 60 s timeout, and `getEffectiveStatus` then reports OFFLINE. -/
theorem C5_heartbeat_counterexample :
    reporterEmits false SyncSpeed.MEDIUM 20000 0 = false
    ∧ DriverField.lastSeen ∉ reporterSyncFields
    ∧ DriverField.lastSeen ∉ jobStatusDriverWriteFields
    ∧ getEffectiveStatus 62001 onJobDriverStale = DriverStatus.OFFLINE := by
  refine ⟨rfl, by decide, by decide, by decide⟩

/-- C5 (amended): the repository has no fixed-interval heartbeat writer.
The reporter is dormant without an active trip (it emits nothing then, at
any time); when it does emit, the only driver-document field it writes is
`lastKnownLocation` — never `lastSeen` — and the job-status handler writes
only `status`; emission is gated by the syncSpeed cooldown, not a 20 s
schedule.  Nothing in the embedded code bounds a vehicle's heartbeat age. -/
theorem C5_no_heartbeat_writer (s : SyncSpeed) (now lastSync : ℤ) :
    reporterEmits false s now lastSync = false
    ∧ DriverField.lastSeen ∉ reporterSyncFields
    ∧ DriverField.lastSeen ∉ jobStatusDriverWriteFields
    ∧ (reporterEmits true s now lastSync = true ↔
        now - lastSync > getSyncCooldown s) := by
  refine ⟨rfl, by decide, by decide, ?_⟩
  simp [reporterEmits, shouldEmit]

/-- C6 (counterexample): ingesting the sample `locStale` (captured at
t = 50 ms) into a route whose tail `locEnd` was captured at t = 900 000 ms
appends it at the end: the result is neither re-sorted by timestamp nor a
rejection, and it violates the non-decreasing-timestamp invariant. -/
theorem C6_out_of_order_appended :
    arrayUnionAppend [locEnd] locStale = [locEnd, locStale]
    ∧ ¬ routeSorted [locEnd, locStale]
    ∧ ([locEnd, locStale] : List Location) ≠ [locEnd]
    ∧ ([locEnd, locStale] : List Location) ≠ [locStale, locEnd] := by
  refine ⟨by decide, ?_, by decide, by decide⟩
  simp [routeSorted, locEnd, locStale]

/-- C6 (amended): route ingestion is an unconditional `arrayUnion` append —
a sample not already present verbatim is placed at the tail whatever its
timestamp, and appending a sample strictly older than the current tail
always produces a route that breaks the non-decreasing-timestamp invariant;
no re-sort and no rejection happens. -/
theorem C6_append_breaks_order (route : List Location) (loc a : Location)
    (hmem : loc ∉ route) (hlast : route.getLast? = some a)
    (hlt : loc.timestamp.getD 0 < a.timestamp.getD 0) :
    arrayUnionAppend route loc = route ++ [loc]
    ∧ ¬ routeSorted (arrayUnionAppend route loc) := by
  have happ : arrayUnionAppend route loc = route ++ [loc] := by
    simp [arrayUnionAppend, hmem]
  refine ⟨happ, ?_⟩
  rw [happ]
  intro hsorted
  rw [routeSorted, List.chain'_append] at hsorted
  obtain ⟨-, -, hrel⟩ := hsorted
  have hcontra := hrel a (by rw [hlast]; rfl) loc (by rfl)
  omega

/-- C6 (witness): concrete instance of `C6_append_breaks_order` with the
single-sample route `[locEnd]` and the stale sample `locStale`. -/
theorem C6_append_breaks_order_witness :
    arrayUnionAppend [locEnd] locStale = [locEnd] ++ [locStale]
    ∧ ¬ routeSorted (arrayUnionAppend [locEnd] locStale) :=
  C6_append_breaks_order [locEnd] locStale locEnd (by decide) rfl (by decide)

/-- One replay event preserves the cursor-range invariant. -/
theorem replayStep_index_bounds (n : ℤ) (hn : 1 ≤ n) (s : ReplayState)
    (h0 : 0 ≤ s.replayIndex) (h1 : s.replayIndex ≤ n - 1) (op : ReplayOp)
    (hop : opInRange op) :
    0 ≤ (replayStep n s op).replayIndex
    ∧ (replayStep n s op).replayIndex ≤ n - 1 := by
  cases op with
  | tick =>
      unfold replayStep
      by_cases hr : s.isReplaying = true
      · rw [if_pos hr]
        by_cases hend : s.replayIndex ≥ n - 1
        · rw [if_pos hend]
          exact ⟨h0, h1⟩
        · rw [if_neg hend]
          constructor
          · simp only []
            omega
          · simp only []
            omega
      · rw [if_neg hr]
        exact ⟨h0, h1⟩
  | stepBack =>
      unfold replayStep
      constructor
      · simp only []
        omega
      · simp only []
        omega
  | stepForward =>
      unfold replayStep
      constructor
      · simp only []
        omega
      · simp only []
        omega
  | togglePlay =>
      exact ⟨h0, h1⟩
  | seekBar frac =>
      obtain ⟨hf0, hf1⟩ := hop
      unfold replayStep
      have hc : (0 : ℚ) ≤ ((n - 1 : ℤ) : ℚ) := by
        exact_mod_cast (by omega : (0 : ℤ) ≤ n - 1)
      constructor
      · simp only []
        exact Int.floor_nonneg.mpr (mul_nonneg hf0 hc)
      · simp only []
        have h2 : frac * ((n - 1 : ℤ) : ℚ) ≤ ((n - 1 : ℤ) : ℚ) :=
          mul_le_of_le_one_left hc hf1
        have h3 := Int.floor_le_floor h2
        rwa [Int.floor_intCast] at h3
  | setSpeed v =>
      exact ⟨h0, h1⟩

/-- Folding any in-range event sequence preserves the cursor-range
invariant. -/
theorem replayFold_index_bounds (n : ℤ) (hn : 1 ≤ n) :
    ∀ (ops : List ReplayOp) (s : ReplayState),
      (∀ op ∈ ops, opInRange op) →
      0 ≤ s.replayIndex → s.replayIndex ≤ n - 1 →
      0 ≤ (ops.foldl (replayStep n) s).replayIndex
      ∧ (ops.foldl (replayStep n) s).replayIndex ≤ n - 1 := by
  intro ops
  induction ops with
  | nil =>
      intro s _ h0 h1
      exact ⟨h0, h1⟩
  | cons op rest ih =>
      intro s hops h0 h1
      have hstep := replayStep_index_bounds n hn s h0 h1 op
        (hops op (List.mem_cons_self op rest))
      exact ih (replayStep n s op)
        (fun o ho => hops o (List.mem_cons_of_mem op ho))
        hstep.1 hstep.2

/-- C7: over a non-empty route of length `n`, the replay cursor stays in
`[0, n-1]` under every in-range event sequence; while playing, a tick below
the last index advances the cursor by exactly 1 and keeps playing; a tick at
(or beyond) the last index stops playback without advancing; and pressing
play on a 1-sample route self-pauses on the first tick with the cursor still
at 0. -/
theorem C7_replay_cursor_bounds (n : ℤ) (hn : 1 ≤ n) (ops : List ReplayOp)
    (hops : ∀ op ∈ ops, opInRange op) :
    (0 ≤ (replayRun n ops).replayIndex
      ∧ (replayRun n ops).replayIndex ≤ n - 1)
    ∧ (∀ s : ReplayState, s.isReplaying = true → s.replayIndex < n - 1 →
        (replayStep n s ReplayOp.tick).replayIndex = s.replayIndex + 1
        ∧ (replayStep n s ReplayOp.tick).isReplaying = true)
    ∧ (∀ s : ReplayState, s.isReplaying = true → n - 1 ≤ s.replayIndex →
        (replayStep n s ReplayOp.tick).replayIndex = s.replayIndex
        ∧ (replayStep n s ReplayOp.tick).isReplaying = false)
    ∧ (replayRun 1 [ReplayOp.togglePlay, ReplayOp.tick]).replayIndex = 0
    ∧ (replayRun 1 [ReplayOp.togglePlay, ReplayOp.tick]).isReplaying
        = false := by
  refine ⟨?_, ?_, ?_, by decide, by decide⟩
  · exact replayFold_index_bounds n hn ops initialReplayState hops
      (le_refl 0) (by simp [initialReplayState]; omega)
  · intro s hs hlt
    unfold replayStep
    rw [if_pos hs, if_neg (by omega)]
    exact ⟨rfl, hs⟩
  · intro s hs hge
    unfold replayStep
    rw [if_pos hs, if_pos (by omega)]
    exact ⟨rfl, rfl⟩

/-- C7 (witness): concrete instance — seeking to the end of a 5-sample route
then playing one tick keeps the cursor inside `[0, 4]`. -/
theorem C7_replay_cursor_bounds_witness :
    0 ≤ (replayRun 5
        [ReplayOp.seekBar 1, ReplayOp.togglePlay, ReplayOp.tick]).replayIndex
    ∧ (replayRun 5
        [ReplayOp.seekBar 1, ReplayOp.togglePlay, ReplayOp.tick]).replayIndex
      ≤ 5 - 1 :=
  (C7_replay_cursor_bounds 5 (by norm_num)
    [ReplayOp.seekBar 1, ReplayOp.togglePlay, ReplayOp.tick]
    (by intro op hop
        fin_cases hop
        · exact ⟨by norm_num, le_refl 1⟩
        · trivial
        · trivial)).1

/-- C8: the progress-bar width computation divides by `route.length - 1`
with no guard: for a 1-sample route (rendered, since the replay interface
only requires `route.length > 0`) the width is `(0 / 0) * 100`, a non-finite
JS value (NaN) rather than a number — the very division the spec forbids.
For longer routes the value is an ordinary percentage. -/
theorem C8_progress_width_not_a_number :
    progressWidthPct 0 1 = none
    ∧ progressWidthPct 1 5 = some 25 := by
  constructor
  · norm_num [progressWidthPct, jsDiv]
  · norm_num [progressWidthPct, jsDiv]

end Fleet
